import Mathlib

/-!
Verification of the load-generation and verification harness of the
`temporal-dsql-deploy` repository, shallowly embedded in Lean 4.

The embedded code lives in two scripts:
  * `dsql-tests/dsql_load_test.py` — the extended load test (`main`,
    `run_bounded_workflow`);
  * `dsql-tests/plugin/token_refresh_test.py` — the 5-minute token-refresh
    test (`main`, `run_single_workflow`).

Python floats measuring durations are embedded as rationals (`ℚ`); Python
strings as `String`; Python `None`-able values as `Option`; and a Python
division that can raise `ZeroDivisionError` as an `Option`-returning
division.  The concurrent driver loop of both scripts is embedded as a
small-step event system over an explicit driver state, mirroring the
cooperative (asyncio) execution of the source: task creation, semaphore
acquisition, remote-call completion, result collection in the admitting
loop, the deadline, drain-phase collection via `asyncio.gather`, and
termination.
-/

namespace LoadTest

/-! ### Outcomes and the operation runners -/

/-- Result of one remote `client.execute_workflow` call as seen by the
runner: either it returns normally, or it raises an exception carrying a
message (`str(e)`). -/
inductive RemoteResult where
  | ok : RemoteResult
  | exn (message : String) : RemoteResult
deriving DecidableEq

/-- `dsql_load_test.run_bounded_workflow`, the body inside
`async with semaphore`: on success it returns `(True, duration, None)`
where `duration` is the measured elapsed time; on any exception it returns
`(False, 0.0, str(e)[:200])`.  `elapsed` stands for the measured
`time.time() - start`. -/
def run_bounded_workflow (elapsed : ℚ) (r : RemoteResult) :
    Bool × ℚ × Option String :=
  match r with
  | .ok => (true, elapsed, none)
  | .exn e => (false, 0, some (e.take 200))

/-- `token_refresh_test.run_single_workflow`: on success it returns
`(True, time.time() - start, "")`; on any exception it returns
`(False, time.time() - start, str(e))` — the reason string is stored
untruncated. -/
def run_single_workflow (elapsed : ℚ) (r : RemoteResult) :
    Bool × ℚ × String :=
  match r with
  | .ok => (true, elapsed, "")
  | .exn e => (false, elapsed, e)

/-! ### Percentile computation (`dsql_load_test.main`, final summary) -/

/-- `sorted(all_durations)` — ascending stable sort of the latency
samples, embedded as insertion sort (sortedness and stability are the
only properties of Python's `sorted` the script relies on). -/
def sortedDurations (l : List ℚ) : List ℚ :=
  l.insertionSort (· ≤ ·)

/-- `int(len(sorted_durations) * p)` — the percentile index used for
P50/P95/P99.  Python's `int()` on a nonnegative value is the floor. -/
def pctIdx (n : ℕ) (p : ℚ) : ℕ :=
  (⌊(n : ℚ) * p⌋).toNat

/-- `sorted_durations[int(len * p)]` — Python indexing, embedded as an
`Option` (`none` models an `IndexError`). -/
def percentile (l : List ℚ) (p : ℚ) : Option ℚ :=
  (sortedDurations l)[pctIdx l.length p]?

/-- Python's builtin `max` over a list of numbers: raises on an empty
sequence (hence the `Option`), otherwise folds the binary maximum over
the elements. -/
def pyMax (l : List ℚ) : Option ℚ :=
  match l with
  | [] => none
  | x :: xs => some (xs.foldl (fun a b => if a ≤ b then b else a) x)

/-! ### Verdicts -/

/-- Tri-state verdict.  In `token_refresh_test` the three printed verdict
lines are: "TOKEN REFRESH TEST PASSED" (`pass`), "FAILURES AROUND TOKEN
EXPIRY" (`fail`, the critical-window outcome), and "Some failures
occurred" (`warn`). -/
inductive Verdict where
  | pass : Verdict
  | warn : Verdict
  | fail : Verdict
deriving DecidableEq

/-- `token_refresh_test.main`, final verdict block:
`if total_failed == 0: PASSED
 elif errors_by_minute.get(5, []) or errors_by_minute.get(4, []): FAILURES AROUND TOKEN EXPIRY
 else: Some failures occurred`.
`errorsByMinute m` is `errors_by_minute.get(m, [])`; Python truthiness of
a list is nonemptiness. -/
def tokenVerdict (totalFailed : ℕ) (errorsByMinute : ℕ → List String) :
    Verdict :=
  if totalFailed = 0 then .pass
  else if errorsByMinute 5 ≠ [] ∨ errorsByMinute 4 ≠ [] then .fail
  else .warn

/-- `dsql_load_test.main`, final verdict block: `if total_errors == 0:
LOAD TEST PASSED else: COMPLETED WITH n ERRORS` — a two-outcome verdict
with no window rule at all. -/
def loadVerdict (totalErrors : ℕ) : Verdict :=
  if totalErrors = 0 then .pass else .warn

/-! ### Rates and guarded/unguarded divisions -/

/-- A Python division: raises `ZeroDivisionError` (here `none`) when the
denominator is zero. -/
def pyDiv (a b : ℚ) : Option ℚ :=
  if b = 0 then none else some (a / b)

/-- `dsql_load_test.main` line 183:
`interval_rate = interval_success / report_interval if report_interval > 0 else 0`.
Note it divides the interval **success** count by the configured
`report_interval`. -/
def interval_rate (interval_success report_interval : ℕ) : ℚ :=
  if 0 < report_interval then (interval_success : ℚ) / report_interval else 0

/-- `dsql_load_test.main` line 225:
`100 * total_success / (total_success + total_errors)` — unguarded. -/
def success_rate (total_success total_errors : ℕ) : Option ℚ :=
  pyDiv (100 * total_success) (total_success + total_errors)

/-- `dsql_load_test.main` line 226:
`(total_success + total_errors) / total_time` — unguarded. -/
def actual_throughput (total_success total_errors : ℕ) (total_time : ℚ) :
    Option ℚ :=
  pyDiv (total_success + total_errors) total_time

/-- `token_refresh_test.main` line 156:
`100 * total_success / max(1, total_success + total_failed)` — guarded,
hence total. -/
def token_success_rate (total_success total_failed : ℕ) : ℚ :=
  (100 * total_success : ℚ) / max 1 (total_success + total_failed)

/-! ### Rate limiting (`dsql_load_test.main`) -/

/-- Submission instants produced by the code's pacing: the loop submits
operation `k`, spends `proc k` seconds of processing inside the iteration,
then unconditionally executes `await asyncio.sleep(1.0 / rate)`
(`delay_between_workflows = 1.0 / workflows_per_second`).  Submission `0`
happens at time `0` (taking `test_start` as the origin). -/
def codeSubmitTime (rate : ℚ) (proc : ℕ → ℚ) : ℕ → ℚ
  | 0 => 0
  | k + 1 => codeSubmitTime rate proc k + proc k + 1 / rate

/-- Modelled from the spec (§4.1 RateLimiter): the spec's limiter resumes
the `k`-th submission at the intended schedule instant `t0 + k/R`, or
immediately if the caller arrives later than that instant — never
sleeping to "catch up".  This definition follows the spec's words, for
comparison with `codeSubmitTime` which follows the source. -/
def specSubmitTime (rate : ℚ) (proc : ℕ → ℚ) : ℕ → ℚ
  | 0 => 0
  | k + 1 => max (specSubmitTime rate proc k + proc k) ((k + 1) / rate)

/-! ### The driver loop (`dsql_load_test.main`) as a small-step system

The `main` coroutine of `dsql_load_test.py` runs a cooperative asyncio
loop.  Its observable effects on the tracked state are embedded as
events:

  * `spawn` — `asyncio.create_task(run_bounded_workflow(n))` plus
    `pending_tasks.add(task)` (lines 150–152); allowed only before the
    deadline check breaks the loop.  Note the task is created *before*
    the semaphore is acquired, so arbitrarily many created-but-waiting
    tasks may exist.
  * `acquire` — a waiting task enters `async with semaphore` (line 106);
    only possible while fewer than `maxInflight` holders exist.
  * `complete o` — a running `client.execute_workflow` call returns or
    raises; `run_bounded_workflow` turns this into its result tuple
    (outcome `o`), the semaphore is released and the task becomes done.
  * `collectLoop o` — the admitting loop's poll
    (`done_tasks = {t for t in pending_tasks if t.done()}`, lines
    155–174) folds one done task: success increments `total_success` and
    appends the duration; failure increments `total_errors` and appends
    the reason to `error_samples` only while `len(error_samples) < 10`.
  * `deadline` — `elapsed >= test_duration_seconds` breaks the loop
    (lines 146–147); the run moves from admitting to draining.
  * `collectDrain o` — the drain block
    (`await asyncio.gather(*pending_tasks, ...)`, lines 200–213) folds
    one outcome: success increments `total_success` and appends the
    duration; failure (or a task exception) increments `total_errors`
    only — the drain block never appends to `error_samples`.
  * `finish` — the drain completes once no task is waiting, in flight or
    uncollected.

An execution of the script corresponds to one sequence of these events;
the embedding accepts every interleaving the asyncio scheduler could
produce (and more), so the theorems below hold for every actual run. -/

/-- Terminal outcome of one operation, as produced by
`run_bounded_workflow`: the success branch carries the measured duration,
the failure branch the (already truncated) reason string. -/
inductive Outcome where
  | success (duration : ℚ)
  | failure (reason : String)
deriving DecidableEq

/-- Phase of the driver: the admitting loop (`while True`), the drain
block after `break`, and the finished run (`DONE`). -/
inductive Phase where
  | admitting
  | draining
  | finished
deriving DecidableEq

/-- The driver-visible state of `dsql_load_test.main`:
`submitted` is `workflow_num` (tasks created); `waiting` counts created
tasks still blocked on the semaphore; `inflight` counts semaphore holders
whose remote call has no terminal outcome yet; `doneQ` holds outcomes of
completed tasks not yet folded into the counters; the remaining fields
are `total_success`, `total_errors`, `all_durations` and
`error_samples`. -/
structure DriverState where
  phase : Phase
  submitted : ℕ
  waiting : ℕ
  inflight : ℕ
  doneQ : List Outcome
  totalSuccess : ℕ
  totalErrors : ℕ
  allDurations : List ℚ
  errorSamples : List String
deriving DecidableEq

/-- Events of the driver loop; see the section comment for the source
location of each. -/
inductive Event where
  | spawn
  | acquire
  | complete (o : Outcome)
  | collectLoop (o : Outcome)
  | deadline
  | collectDrain (o : Outcome)
  | finish
deriving DecidableEq

/-- Folding a successful outcome into the counters — identical in the
admitting loop (lines 160–164) and the drain block (lines 209–211):
`total_success += 1` and `all_durations.append(duration)`. -/
def foldSuccess (s : DriverState) (d : ℚ) (rest : List Outcome) :
    DriverState :=
  { s with doneQ := rest, totalSuccess := s.totalSuccess + 1,
           allDurations := s.allDurations ++ [d] }

/-- One event of the driver system; `none` means the event is not
enabled in state `s` (its guard fails). -/
def step (maxInflight : ℕ) (s : DriverState) (e : Event) :
    Option DriverState :=
  match e with
  | .spawn =>
      if s.phase = .admitting then
        some { s with submitted := s.submitted + 1, waiting := s.waiting + 1 }
      else none
  | .acquire =>
      if 0 < s.waiting ∧ s.inflight < maxInflight then
        some { s with waiting := s.waiting - 1, inflight := s.inflight + 1 }
      else none
  | .complete o =>
      if 0 < s.inflight then
        some { s with inflight := s.inflight - 1, doneQ := s.doneQ ++ [o] }
      else none
  | .collectLoop o =>
      match s.doneQ with
      | o2 :: rest =>
          if s.phase = .admitting ∧ o = o2 then
            some (match o with
              | .success d => foldSuccess s d rest
              | .failure r =>
                  { s with doneQ := rest, totalErrors := s.totalErrors + 1,
                           errorSamples :=
                             if s.errorSamples.length < 10 then
                               s.errorSamples ++ [r]
                             else s.errorSamples })
          else none
      | [] => none
  | .deadline =>
      if s.phase = .admitting then some { s with phase := .draining }
      else none
  | .collectDrain o =>
      match s.doneQ with
      | o2 :: rest =>
          if s.phase = .draining ∧ o = o2 then
            some (match o with
              | .success d => foldSuccess s d rest
              | .failure _ =>
                  { s with doneQ := rest, totalErrors := s.totalErrors + 1 })
          else none
      | [] => none
  | .finish =>
      if s.phase = .draining ∧ s.waiting = 0 ∧ s.inflight = 0 ∧
          s.doneQ = [] then
        some { s with phase := .finished }
      else none

/-- The state at `test_start`: admitting, nothing submitted, all
counters zero, all lists empty. -/
def initState : DriverState :=
  { phase := .admitting, submitted := 0, waiting := 0, inflight := 0,
    doneQ := [], totalSuccess := 0, totalErrors := 0, allDurations := [],
    errorSamples := [] }

/-- Run a sequence of events from a state; `none` if any event is not
enabled where it occurs. -/
def runEvents (maxInflight : ℕ) :
    DriverState → List Event → Option DriverState
  | s, [] => some s
  | s, e :: es =>
      match step maxInflight s e with
      | some s2 => runEvents maxInflight s2 es
      | none => none

/-- Operations still outstanding from the driver's point of view:
created-but-waiting plus in-flight plus completed-but-uncollected. -/
def outstanding (s : DriverState) : ℕ :=
  s.waiting + s.inflight + s.doneQ.length

/-- `total_success + total_errors` — the recorded terminal outcomes. -/
def completedTotal (s : DriverState) : ℕ :=
  s.totalSuccess + s.totalErrors

/-- Number of `complete` events in a trace = number of operations that
reached a terminal outcome. -/
def completeCount (tr : List Event) : ℕ :=
  (tr.filter fun e =>
    match e with
    | .complete _ => true
    | _ => false).length

/-- Reasons of the failures folded by the admitting loop (the
`collectLoop` events), in completion order. -/
def loopFailureReasons (tr : List Event) : List String :=
  tr.filterMap fun e =>
    match e with
    | .collectLoop (.failure r) => some r
    | _ => none

/-! ### Concrete inputs used to instantiate the theorems -/

/-- The latency samples `[0.10, 0.20, 0.30, 0.40, 0.50]` of the spec's
percentile example. -/
def c4Samples : List ℚ :=
  [1/10, 2/10, 3/10, 4/10, 5/10]

/-- A 250-character exception message. -/
def longReason : String :=
  String.mk (List.replicate 250 'a')

/-- An `errors_by_minute` map holding one error in elapsed minute 6. -/
def c5Minute6Errors : ℕ → List String :=
  fun m => if m = 6 then ["connection reset"] else []

/-- An `errors_by_minute` map holding one error in elapsed minute 4. -/
def c5Minute4Errors : ℕ → List String :=
  fun m => if m = 4 then ["token expired"] else []

/-- A short admitting-phase history: two tasks created, one past the
semaphore. -/
def c1Trace : List Event :=
  [.spawn, .spawn, .acquire]

/-- The state `c1Trace` reaches from `initState` with concurrency 2. -/
def c1State : DriverState :=
  { phase := .admitting, submitted := 2, waiting := 1, inflight := 1,
    doneQ := [], totalSuccess := 0, totalErrors := 0, allDurations := [],
    errorSamples := [] }

/-- A run that hits the deadline with one task still waiting. -/
def c2AdmitTrace : List Event :=
  [.spawn, .deadline]

/-- The draining state after `c2AdmitTrace`: one operation outstanding. -/
def c2DrainState : DriverState :=
  { phase := .draining, submitted := 1, waiting := 1, inflight := 0,
    doneQ := [], totalSuccess := 0, totalErrors := 0, allDurations := [],
    errorSamples := [] }

/-- The drain of the one outstanding operation, which fails. -/
def c2DrainTrace : List Event :=
  [.acquire, .complete (.failure "boom"), .collectDrain (.failure "boom"),
   .finish]

/-- The finished state after `c2DrainTrace` from `c2DrainState`. -/
def c2FinalState : DriverState :=
  { phase := .finished, submitted := 1, waiting := 0, inflight := 0,
    doneQ := [], totalSuccess := 0, totalErrors := 1,
    allDurations := [], errorSamples := [] }

/-- A history with one collected success and a second task created. -/
def c3Trace : List Event :=
  [.spawn, .acquire, .complete (.success 1), .collectLoop (.success 1),
   .spawn]

/-- The state `c3Trace` reaches from `initState` with concurrency 3. -/
def c3State : DriverState :=
  { phase := .admitting, submitted := 2, waiting := 1, inflight := 0,
    doneQ := [], totalSuccess := 1, totalErrors := 0,
    allDurations := [1], errorSamples := [] }

/-- Twenty pairwise distinct failure reasons. -/
def c8Reasons : List String :=
  ["f01", "f02", "f03", "f04", "f05", "f06", "f07", "f08", "f09", "f10",
   "f11", "f12", "f13", "f14", "f15", "f16", "f17", "f18", "f19", "f20"]

/-- A run that creates 20 tasks, hits the deadline, and only then sees
all 20 fail: every failure is folded by the drain block. -/
def c8DrainTrace : List Event :=
  c8Reasons.map (fun _ => Event.spawn) ++ [Event.deadline] ++
  (c8Reasons.flatMap fun r =>
    [Event.acquire, Event.complete (.failure r),
     Event.collectDrain (.failure r)]) ++
  [Event.finish]

/-- A history with a single loop-phase failure. -/
def c8LoopTrace : List Event :=
  [.spawn, .acquire, .complete (.failure "e1"), .collectLoop (.failure "e1")]

/-- The state `c8LoopTrace` reaches from `initState` with concurrency 1. -/
def c8LoopState : DriverState :=
  { phase := .admitting, submitted := 1, waiting := 0, inflight := 0,
    doneQ := [], totalSuccess := 0, totalErrors := 1,
    allDurations := [], errorSamples := ["e1"] }

/-! ### Invariants of the driver system -/

/-- The inductive invariant of the driver loop: the semaphore bounds the
in-flight count; recorded outcomes plus outstanding operations account
exactly for every created task; and a finished run has nothing
outstanding. -/
def Inv (maxInflight : ℕ) (s : DriverState) : Prop :=
  s.inflight ≤ maxInflight ∧
  completedTotal s + outstanding s = s.submitted ∧
  (s.phase = .finished → outstanding s = 0)

theorem inv_init (maxInflight : ℕ) : Inv maxInflight initState := by
  refine ⟨Nat.zero_le _, rfl, fun h => rfl⟩

theorem inv_step {maxInflight : ℕ} {s s2 : DriverState} {e : Event}
    (hs : Inv maxInflight s) (h : step maxInflight s e = some s2) :
    Inv maxInflight s2 := by
  obtain ⟨h1, h2, h3⟩ := hs
  cases e with
  | spawn =>
      simp only [step] at h
      split at h
      · cases h
        refine ⟨h1, ?_, fun hph => ?_⟩
        · simp only [completedTotal, outstanding] at h2 ⊢
          omega
        · simp_all
      · cases h
  | acquire =>
      simp only [step] at h
      split at h
      · cases h
        rename_i hg
        refine ⟨by show s.inflight + 1 ≤ maxInflight; omega, ?_, fun hph => ?_⟩
        · simp only [completedTotal, outstanding] at h2 ⊢
          omega
        · have := h3 hph
          simp only [outstanding] at this ⊢
          omega
      · cases h
  | complete o =>
      simp only [step] at h
      split at h
      · cases h
        rename_i hg
        refine ⟨by show s.inflight - 1 ≤ maxInflight; omega, ?_, fun hph => ?_⟩
        · simp only [completedTotal, outstanding, List.length_append,
            List.length_cons, List.length_nil] at h2 ⊢
          omega
        · have := h3 hph
          simp only [outstanding] at this
          omega
      · cases h
  | collectLoop o =>
      simp only [step] at h
      split at h
      · rename_i o2 rest hq
        split at h
        · rename_i hg
          cases o with
          | success d =>
              cases h
              refine ⟨h1, ?_, fun hph => ?_⟩
              · simp only [completedTotal, outstanding, foldSuccess, hq,
                  List.length_cons] at h2 ⊢
                omega
              · simp only [foldSuccess] at hph
                exact absurd hph (by simp [hg.1])
          | failure r =>
              cases h
              refine ⟨h1, ?_, fun hph => ?_⟩
              · simp only [completedTotal, outstanding, hq,
                  List.length_cons] at h2 ⊢
                omega
              · exact absurd hph (by simp [hg.1])
        · cases h
      · cases h
  | deadline =>
      simp only [step] at h
      split at h
      · cases h
        exact ⟨h1, h2, by simp⟩
      · cases h
  | collectDrain o =>
      simp only [step] at h
      split at h
      · rename_i o2 rest hq
        split at h
        · rename_i hg
          cases o with
          | success d =>
              cases h
              refine ⟨h1, ?_, fun hph => ?_⟩
              · simp only [completedTotal, outstanding, foldSuccess, hq,
                  List.length_cons] at h2 ⊢
                omega
              · simp only [foldSuccess] at hph
                exact absurd hph (by simp [hg.1])
          | failure r =>
              cases h
              refine ⟨h1, ?_, fun hph => ?_⟩
              · simp only [completedTotal, outstanding, hq,
                  List.length_cons] at h2 ⊢
                omega
              · exact absurd hph (by simp [hg.1])
        · cases h
      · cases h
  | finish =>
      simp only [step] at h
      split at h
      · cases h
        rename_i hg
        refine ⟨h1, h2, fun _ => ?_⟩
        simp only [outstanding, hg.2.1, hg.2.2.1, hg.2.2.2]
        rfl
      · cases h

theorem inv_run {maxInflight : ℕ} {s s2 : DriverState} {tr : List Event}
    (hs : Inv maxInflight s) (h : runEvents maxInflight s tr = some s2) :
    Inv maxInflight s2 := by
  induction tr generalizing s with
  | nil =>
      simp only [runEvents] at h
      cases h
      exact hs
  | cons e es ih =>
      simp only [runEvents] at h
      split at h
      · rename_i s3 hstep
        exact ih (inv_step hs hstep) h
      · cases h

/-- Once the deadline has fired, no event re-enters the admitting phase
and `submitted` (the `workflow_num` counter) never changes again: the
drain block admits no new operations. -/
theorem step_frozen {maxInflight : ℕ} {s s2 : DriverState} {e : Event}
    (hp : s.phase ≠ .admitting) (h : step maxInflight s e = some s2) :
    s2.phase ≠ .admitting ∧ s2.submitted = s.submitted := by
  cases e with
  | spawn =>
      simp only [step] at h
      split at h
      · rename_i hg
        exact absurd hg hp
      · cases h
  | acquire =>
      simp only [step] at h
      split at h
      · cases h
        exact ⟨hp, rfl⟩
      · cases h
  | complete o =>
      simp only [step] at h
      split at h
      · cases h
        exact ⟨hp, rfl⟩
      · cases h
  | collectLoop o =>
      simp only [step] at h
      split at h
      · split at h
        · rename_i hg
          exact absurd hg.1 hp
        · cases h
      · cases h
  | deadline =>
      simp only [step] at h
      split at h
      · rename_i hg
        exact absurd hg hp
      · cases h
  | collectDrain o =>
      simp only [step] at h
      split at h
      · rename_i o2 rest hq
        split at h
        · rename_i hg
          cases o with
          | success d =>
              cases h
              exact ⟨by simp [foldSuccess, hg.1], rfl⟩
          | failure r =>
              cases h
              exact ⟨by simp [hg.1], rfl⟩
        · cases h
      · cases h
  | finish =>
      simp only [step] at h
      split at h
      · cases h
        exact ⟨by simp, rfl⟩
      · cases h

theorem run_frozen {maxInflight : ℕ} {s s2 : DriverState} {tr : List Event}
    (hp : s.phase ≠ .admitting)
    (h : runEvents maxInflight s tr = some s2) :
    s2.phase ≠ .admitting ∧ s2.submitted = s.submitted := by
  induction tr generalizing s with
  | nil =>
      simp only [runEvents] at h
      cases h
      exact ⟨hp, rfl⟩
  | cons e es ih =>
      simp only [runEvents] at h
      split at h
      · rename_i s3 hstep
        obtain ⟨hp3, hsub3⟩ := step_frozen hp hstep
        obtain ⟨hp2, hsub2⟩ := ih hp3 h
        exact ⟨hp2, hsub2.trans hsub3⟩
      · cases h

/-- Marker for the events that correspond to a remote call reaching a
terminal outcome. -/
def isCompleteEvent (e : Event) : Bool :=
  match e with
  | .complete _ => true
  | _ => false

/-- Each step changes `total_success + total_errors + len(doneQ)` by one
exactly when the event is a completion: collecting moves an outcome from
the queue into the counters without creating or dropping any. -/
theorem step_completed {maxInflight : ℕ} {s s2 : DriverState} {e : Event}
    (h : step maxInflight s e = some s2) :
    completedTotal s2 + s2.doneQ.length =
      completedTotal s + s.doneQ.length +
        (if isCompleteEvent e then 1 else 0) := by
  cases e with
  | spawn =>
      simp only [step] at h
      split at h
      · cases h
        simp [completedTotal, isCompleteEvent]
      · cases h
  | acquire =>
      simp only [step] at h
      split at h
      · cases h
        simp [completedTotal, isCompleteEvent]
      · cases h
  | complete o =>
      simp only [step] at h
      split at h
      · cases h
        simp [completedTotal, isCompleteEvent]
        omega
      · cases h
  | collectLoop o =>
      simp only [step] at h
      split at h
      · rename_i o2 rest hq
        split at h
        · cases o with
          | success d =>
              cases h
              simp [completedTotal, foldSuccess, isCompleteEvent, hq]
              omega
          | failure r =>
              cases h
              simp [completedTotal, isCompleteEvent, hq]
              omega
        · cases h
      · cases h
  | deadline =>
      simp only [step] at h
      split at h
      · cases h
        simp [completedTotal, isCompleteEvent]
      · cases h
  | collectDrain o =>
      simp only [step] at h
      split at h
      · rename_i o2 rest hq
        split at h
        · cases o with
          | success d =>
              cases h
              simp [completedTotal, foldSuccess, isCompleteEvent, hq]
              omega
          | failure r =>
              cases h
              simp [completedTotal, isCompleteEvent, hq]
              omega
        · cases h
      · cases h
  | finish =>
      simp only [step] at h
      split at h
      · cases h
        simp [completedTotal, isCompleteEvent]
      · cases h

theorem run_completed {maxInflight : ℕ} {s s2 : DriverState}
    {tr : List Event} (h : runEvents maxInflight s tr = some s2) :
    completedTotal s2 + s2.doneQ.length =
      completedTotal s + s.doneQ.length + completeCount tr := by
  induction tr generalizing s with
  | nil =>
      simp only [runEvents] at h
      cases h
      simp [completeCount]
  | cons e es ih =>
      simp only [runEvents] at h
      split at h
      · rename_i s3 hstep
        have h1 := step_completed hstep
        have h2 := ih h
        have h3 : completeCount (e :: es) =
            (if isCompleteEvent e then 1 else 0) + completeCount es := by
          simp only [completeCount, List.filter]
          cases e <;> simp +arith [isCompleteEvent]
        omega
      · cases h

/-- The loop-phase failure reasons contributed by a single event. -/
def loopFailureOf (e : Event) : List String :=
  match e with
  | .collectLoop (.failure r) => [r]
  | _ => []

theorem loopFailureReasons_cons (e : Event) (es : List Event) :
    loopFailureReasons (e :: es) =
      loopFailureOf e ++ loopFailureReasons es := by
  cases e with
  | collectLoop o =>
      cases o <;> simp [loopFailureReasons, loopFailureOf, List.filterMap]
  | spawn => simp [loopFailureReasons, loopFailureOf, List.filterMap]
  | acquire => simp [loopFailureReasons, loopFailureOf, List.filterMap]
  | complete o => simp [loopFailureReasons, loopFailureOf, List.filterMap]
  | deadline => simp [loopFailureReasons, loopFailureOf, List.filterMap]
  | collectDrain o => simp [loopFailureReasons, loopFailureOf, List.filterMap]
  | finish => simp [loopFailureReasons, loopFailureOf, List.filterMap]

/-- Appending one reason under the `len < 10` guard is the same as
re-taking the first ten of the full failure history. -/
theorem take_ten_snoc (fs : List String) (r : String) :
    (if (List.take 10 fs).length < 10 then List.take 10 fs ++ [r]
     else List.take 10 fs) = List.take 10 (fs ++ [r]) := by
  by_cases h : fs.length < 10
  · have hfs : List.take 10 fs = fs := List.take_of_length_le (by omega)
    rw [List.take_append_eq_append_take, hfs]
    have h2 : List.take (10 - fs.length) [r] = [r] :=
      List.take_of_length_le (by simp; omega)
    rw [h2, if_pos h]
  · rw [List.take_append_of_le_length (by omega), if_neg]
    simp only [List.length_take]
    omega

/-- One step of the driver rewires `error_samples` exactly as the
"first ten loop-phase failure reasons" characterization predicts. -/
theorem samples_step {maxInflight : ℕ} {s s2 : DriverState} {e : Event}
    {fs : List String} (hs : s.errorSamples = List.take 10 fs)
    (h : step maxInflight s e = some s2) :
    s2.errorSamples = List.take 10 (fs ++ loopFailureOf e) := by
  cases e with
  | spawn =>
      simp only [step] at h
      split at h
      · cases h
        simpa [loopFailureOf] using hs
      · cases h
  | acquire =>
      simp only [step] at h
      split at h
      · cases h
        simpa [loopFailureOf] using hs
      · cases h
  | complete o =>
      simp only [step] at h
      split at h
      · cases h
        simpa [loopFailureOf] using hs
      · cases h
  | collectLoop o =>
      simp only [step] at h
      split at h
      · rename_i o2 rest hq
        split at h
        · cases o with
          | success d =>
              cases h
              simpa [foldSuccess, loopFailureOf] using hs
          | failure r =>
              cases h
              show (if s.errorSamples.length < 10 then s.errorSamples ++ [r]
                    else s.errorSamples) = List.take 10 (fs ++ [r])
              rw [hs]
              exact take_ten_snoc fs r
        · cases h
      · cases h
  | deadline =>
      simp only [step] at h
      split at h
      · cases h
        simpa [loopFailureOf] using hs
      · cases h
  | collectDrain o =>
      simp only [step] at h
      split at h
      · rename_i o2 rest hq
        split at h
        · cases o with
          | success d =>
              cases h
              simpa [foldSuccess, loopFailureOf] using hs
          | failure r =>
              cases h
              simpa [loopFailureOf] using hs
        · cases h
      · cases h
  | finish =>
      simp only [step] at h
      split at h
      · cases h
        simpa [loopFailureOf] using hs
      · cases h

theorem samples_run {maxInflight : ℕ} {s s2 : DriverState}
    {tr : List Event} {fs : List String}
    (hs : s.errorSamples = List.take 10 fs)
    (h : runEvents maxInflight s tr = some s2) :
    s2.errorSamples = List.take 10 (fs ++ loopFailureReasons tr) := by
  induction tr generalizing s fs with
  | nil =>
      simp only [runEvents] at h
      cases h
      simpa [loopFailureReasons] using hs
  | cons e es ih =>
      simp only [runEvents] at h
      split at h
      · rename_i s3 hstep
        have h2 := ih (samples_step hs hstep) h
        rw [loopFailureReasons_cons, ← List.append_assoc]
        exact h2
      · cases h

/-! ### Claim theorems -/

/-- Claim C1: in every reachable state of the driver while it is still
admitting, the number of operations that have been submitted past the
concurrency gate but have no terminal outcome (`inflight`) is at most the
configured maximum (`maxInflight`, the semaphore's initial value): an
operation only counts as submitted to the remote system after `acquire`,
whose guard enforces the bound.  (The bound in fact holds in every phase;
the admitting hypothesis mirrors the claim's wording.) -/
theorem inflight_bounded (maxInflight : ℕ) (tr : List Event)
    (s : DriverState) (h : runEvents maxInflight initState tr = some s)
    (_hph : s.phase = .admitting) :
    s.inflight ≤ maxInflight :=
  (inv_run (inv_init maxInflight) h).1

theorem inflight_bounded_witness : c1State.inflight ≤ 2 :=
  inflight_bounded 2 c1Trace c1State (by decide) (by decide)

/-- Claim C2: if the deadline is reached with `n` operations outstanding
(created-but-waiting, in flight, or completed-but-uncollected), then by
the time the drain completes the recorded totals have grown by exactly
`n` terminal outcomes — each drained operation is counted exactly once as
a success or a failure, and none is dropped. -/
theorem drain_completeness (maxInflight : ℕ) (tr1 tr2 : List Event)
    (s1 s2 : DriverState) (n : ℕ)
    (h1 : runEvents maxInflight initState tr1 = some s1)
    (hph : s1.phase = .draining)
    (hn : outstanding s1 = n)
    (h2 : runEvents maxInflight s1 tr2 = some s2)
    (hdone : s2.phase = .finished) :
    completedTotal s2 = completedTotal s1 + n := by
  have hi1 := inv_run (inv_init maxInflight) h1
  have hi2 := inv_run hi1 h2
  have hfr := run_frozen (by simp [hph]) h2
  have hout2 := hi2.2.2 hdone
  have he1 := hi1.2.1
  have he2 := hi2.2.1
  have hsub := hfr.2
  omega

theorem drain_completeness_witness :
    completedTotal c2FinalState = completedTotal c2DrainState + 1 :=
  drain_completeness 1 c2AdmitTrace c2DrainTrace c2DrainState c2FinalState 1
    (by decide) (by decide) (by decide) (by decide) (by decide)

/-- Claim C3: in every reachable state, the recorded success count plus
failure count equals the number of collected terminal outcomes, which
differs from the number of operations that have reached a terminal
outcome (`completeCount tr`) only by the completed-but-not-yet-collected
queue; whenever the driver has polled that queue empty — as it has at
every observation point of the loop (the poll and the drain both run to
exhaustion with no intervening await) and at the end of the run — the sum
equals the number of terminal outcomes exactly, and it never exceeds the
number of operations submitted. -/
theorem totals_conservation (maxInflight : ℕ) (tr : List Event)
    (s : DriverState) (h : runEvents maxInflight initState tr = some s) :
    completedTotal s + s.doneQ.length = completeCount tr ∧
    completedTotal s ≤ s.submitted ∧
    (s.doneQ = [] → completedTotal s = completeCount tr) := by
  have hc := run_completed h
  have hc2 : completedTotal s + s.doneQ.length = completeCount tr := by
    simpa [initState, completedTotal] using hc
  have hi := inv_run (inv_init maxInflight) h
  have he := hi.2.1
  refine ⟨hc2, ?_, fun hq => ?_⟩
  · have : completedTotal s + outstanding s = s.submitted := he
    omega
  · rw [hq] at hc2
    simpa using hc2

theorem totals_conservation_witness :
    completedTotal c3State + c3State.doneQ.length = completeCount c3Trace ∧
    completedTotal c3State ≤ c3State.submitted ∧
    (c3State.doneQ = [] → completedTotal c3State = completeCount c3Trace) :=
  totals_conservation 3 c3Trace c3State (by decide)

/-- Claim C8 counterexample: a run that records 20 distinct failures, all
of which reach their terminal outcome during the drain phase, stores 0
error samples — not the 10 the claim requires — because the drain block
(lines 200–213 of `dsql_load_test.py`) never appends to `error_samples`. -/
theorem error_samples_counterexample :
    (runEvents 10 initState c8DrainTrace).map
      (fun s => (s.totalErrors, s.errorSamples.length)) = some (20, 0) ∧
    (some ((20 : ℕ), (10 : ℕ)) : Option (ℕ × ℕ)) ≠ some (20, 0) :=
  ⟨by decide, by decide⟩

/-- Claim C8 (amended): the stored error samples are exactly the first
ten failure reasons collected by the admitting loop, in completion order
— a first-N sample, never replaced once full; failures folded during the
drain phase are never sampled, so a run with 20 failures stores
`min 10 (number of loop-phase failures)` reasons, not necessarily 10. -/
theorem error_samples_first_ten (maxInflight : ℕ) (tr : List Event)
    (s : DriverState) (h : runEvents maxInflight initState tr = some s) :
    s.errorSamples = List.take 10 (loopFailureReasons tr) := by
  have hs0 : initState.errorSamples = List.take 10 ([] : List String) := rfl
  have hres := samples_run hs0 h
  simpa using hres

theorem error_samples_first_ten_witness :
    c8LoopState.errorSamples = List.take 10 (loopFailureReasons c8LoopTrace) :=
  error_samples_first_ten 1 c8LoopTrace c8LoopState (by decide)

theorem c4_sorted : sortedDurations c4Samples = c4Samples := by
  norm_num [sortedDurations, c4Samples, List.insertionSort,
    List.orderedInsert]

theorem c4_idx50 : pctIdx c4Samples.length (50/100) = 2 := by
  norm_num [c4Samples, pctIdx]
  decide

theorem c4_idx95 : pctIdx c4Samples.length (95/100) = 4 := by
  norm_num [c4Samples, pctIdx]
  decide

/-- Claim C4: the p-th percentile reported is the element at 0-indexed
position `floor(len * p)` of the ascending-sorted samples; for `p < 1`
that index is already at most `len - 1`, so the claimed clamp is a no-op
(the code performs no explicit clamp and none is needed for
P50/P95/P99).  On the samples `[0.10, 0.20, 0.30, 0.40, 0.50]`:
P50 = index 2 = 0.30, P95 = index 4 = 0.50, and Max = 0.50. -/
theorem percentile_correct :
    (∀ (n : ℕ) (p : ℚ), 0 < n → 0 ≤ p → p < 1 →
      pctIdx n p = min (pctIdx n p) (n - 1)) ∧
    percentile c4Samples (50/100) = some (3/10) ∧
    percentile c4Samples (95/100) = some (5/10) ∧
    pyMax c4Samples = some (5/10) := by
  refine ⟨?_, ?_, ?_, ?_⟩
  · intro n p hn hp0 hp1
    have hlt : ⌊(n : ℚ) * p⌋ < (n : ℤ) := by
      apply Int.floor_lt.2
      push_cast
      calc (n : ℚ) * p < (n : ℚ) * 1 := by
            apply mul_lt_mul_of_pos_left hp1
            exact_mod_cast hn
        _ = n := mul_one _
    have hge : (0 : ℤ) ≤ ⌊(n : ℚ) * p⌋ := by
      apply Int.floor_nonneg.2
      have hn0 : (0 : ℚ) ≤ (n : ℚ) := by positivity
      exact mul_nonneg hn0 hp0
    simp only [pctIdx]
    omega
  · show (sortedDurations c4Samples)[pctIdx c4Samples.length (50/100)]? =
      some (3/10)
    rw [c4_sorted, c4_idx50]
    rfl
  · show (sortedDurations c4Samples)[pctIdx c4Samples.length (95/100)]? =
      some (5/10)
    rw [c4_sorted, c4_idx95]
    rfl
  · norm_num [pyMax, c4Samples]

theorem percentile_correct_witness :
    pctIdx 5 (50/100) = min (pctIdx 5 (50/100)) (5 - 1) :=
  percentile_correct.1 5 (50/100) (by norm_num) (by norm_num) (by norm_num)

/-- Claim C5 counterexample: one failure recorded in elapsed minute 6 —
inside the claim's example critical window [4,6] minutes — yields the
generic "some failures occurred" outcome (WARN), not FAIL: the code's
window check reads only the hardcoded literals `errors_by_minute.get(5)`
and `errors_by_minute.get(4)`, so the window is neither [4,6] nor a
configuration value. -/
theorem verdict_window_counterexample :
    tokenVerdict 1 c5Minute6Errors = .warn ∧
    Verdict.warn ≠ .fail ∧
    c5Minute6Errors 6 ≠ [] ∧ 4 ≤ 6 ∧ 6 ≤ 6 :=
  ⟨by decide, by decide, by decide, by decide, by decide⟩

/-- Claim C5 (amended): the verdict is PASS iff the failure count is
zero; with failures present it is FAIL exactly when some failure was
recorded in elapsed minute 4 or minute 5 (a hardcoded two-minute window,
not a configuration value), and WARN otherwise.  The plain load test's
verdict is two-valued: PASS iff zero failures. -/
theorem verdict_rules (totalFailed : ℕ) (ebm : ℕ → List String) :
    (tokenVerdict totalFailed ebm = .pass ↔ totalFailed = 0) ∧
    (totalFailed ≠ 0 → (ebm 4 ≠ [] ∨ ebm 5 ≠ []) →
      tokenVerdict totalFailed ebm = .fail) ∧
    (totalFailed ≠ 0 → ebm 4 = [] → ebm 5 = [] →
      tokenVerdict totalFailed ebm = .warn) ∧
    (∀ te : ℕ, loadVerdict te = .pass ↔ te = 0) := by
  refine ⟨?_, ?_, ?_, ?_⟩
  · unfold tokenVerdict
    split
    · rename_i hz
      simp [hz]
    · rename_i hz
      split <;> simp [hz]
  · intro hnz hw
    unfold tokenVerdict
    rw [if_neg hnz, if_pos (by tauto)]
  · intro hnz h4 h5
    unfold tokenVerdict
    rw [if_neg hnz, if_neg (by simp [h4, h5])]
  · intro te
    unfold loadVerdict
    split <;> simp_all

theorem verdict_rules_witness :
    tokenVerdict 1 c5Minute4Errors = .fail :=
  (verdict_rules 1 c5Minute4Errors).2.1 (by decide) (Or.inl (by decide))

/-- Claim C6 counterexample: `run_single_workflow` of
`token_refresh_test.py` stores a 250-character exception message
untruncated — its stored reason exceeds the claimed 200-character bound,
because its except branch returns `str(e)` with no slice. -/
theorem reason_truncation_counterexample :
    (run_single_workflow 1 (.exn longReason)).2.2.length = 250 ∧
    ¬ (run_single_workflow 1 (.exn longReason)).2.2.length ≤ 200 := by
  have h : (run_single_workflow 1 (.exn longReason)).2.2.length = 250 := by
    simp only [run_single_workflow, longReason, String.length,
      List.length_replicate]
  exact ⟨h, by rw [h]; decide⟩

/-- Claim C6 (amended): both runners are total by construction — every
exception from the remote call is caught and converted to a failure
tuple, and no exception propagates — but only
`dsql_load_test.run_bounded_workflow` truncates the reason to at most 200
characters (`str(e)[:200]`);
`token_refresh_test.run_single_workflow` stores the full message. -/
theorem runner_totality_truncation (elapsed : ℚ) (e : String) :
    run_bounded_workflow elapsed (.exn e) = (false, 0, some (e.take 200)) ∧
    (e.take 200).length ≤ 200 ∧
    run_single_workflow elapsed (.exn e) = (false, elapsed, e) := by
  refine ⟨rfl, ?_, rfl⟩
  rw [String.take_eq]
  show (e.1.take 200).length ≤ 200
  simp

/-- Claim C7 counterexample: with rate 1 op/s and a 5-second processing
delay in the first iteration, the caller reaches the rate limiter at
t = 5, later than the intended schedule instant t0 + 1/R = 1; the
claimed limiter would return immediately (second submission at t = 5,
per `specSubmitTime`), but the code sleeps the full 1/R and submits at
t = 6. -/
theorem rate_limiter_counterexample :
    codeSubmitTime 1 (fun _ => 5) 1 = 6 ∧
    specSubmitTime 1 (fun _ => 5) 1 = 5 ∧
    (6 : ℚ) ≠ 5 := by
  norm_num [codeSubmitTime, specSubmitTime]

/-- Claim C7 (amended): the code's pacing is an unconditional
`asyncio.sleep(1/R)` at the end of each iteration, so the k-th submission
happens at `t0 + (sum of per-iteration processing delays) + k/R` — never
earlier than the intended schedule `t0 + k/R`, but drifting later by the
accumulated processing time: the schedule is `last_actual + 1/R`, not
`t0 + k/R`, and a delayed caller still waits the full `1/R` instead of
returning immediately. -/
theorem code_submit_schedule (rate : ℚ) (proc : ℕ → ℚ) (k : ℕ)
    (_hr : 0 < rate) (hp : ∀ i, 0 ≤ proc i) :
    codeSubmitTime rate proc k =
      (∑ i ∈ Finset.range k, proc i) + k / rate ∧
    (k : ℚ) / rate ≤ codeSubmitTime rate proc k := by
  have he : codeSubmitTime rate proc k =
      (∑ i ∈ Finset.range k, proc i) + k / rate := by
    induction k with
    | zero => simp [codeSubmitTime]
    | succ n ih =>
        simp only [codeSubmitTime, ih, Finset.sum_range_succ]
        push_cast
        ring
  refine ⟨he, ?_⟩
  rw [he]
  have hsum : 0 ≤ ∑ i ∈ Finset.range k, proc i :=
    Finset.sum_nonneg fun i _ => hp i
  linarith

theorem code_submit_schedule_witness :
    (3 : ℚ) / 2 ≤ codeSubmitTime 2 (fun _ => 0) 3 :=
  (code_submit_schedule 2 (fun _ => 0) 3 (by norm_num)
    (fun _ => le_refl 0)).2

/-- Claim C9 counterexample: an interval that folded 3 successes and 2
failures during a 60-second report window is reported at
`interval_success / report_interval` = 3/60 = 1/20 ops/s — successes
only, divided by the configured interval length — whereas the claim's
formula gives (3+2)/60 = 1/12. -/
theorem interval_rate_counterexample :
    interval_rate 3 60 = 1/20 ∧ ((3 : ℚ) + 2) / 60 = 1/12 ∧
    (1/20 : ℚ) ≠ 1/12 := by
  norm_num [interval_rate]

/-- Claim C9 (amended): the final summary's throughput is indeed
(successes + failures) / elapsed wall-clock seconds of the run, but the
per-interval progress rate is the interval's success count alone divided
by the configured `report_interval` constant — failures are not counted
and the actual elapsed window length is not used. -/
theorem throughput_formulas (ts te : ℕ) (T : ℚ) (hT : T ≠ 0)
    (s r : ℕ) (hr : 0 < r) :
    actual_throughput ts te T = some (((ts : ℚ) + te) / T) ∧
    interval_rate s r = (s : ℚ) / r := by
  constructor
  · simp [actual_throughput, pyDiv, hT]
  · simp [interval_rate, hr]

theorem throughput_formulas_witness :
    actual_throughput 3 2 10 = some ((3 + 2 : ℚ) / 10) := by
  have h := (throughput_formulas 3 2 10 (by norm_num) 1 1
    (by norm_num)).1
  simpa using h

/-- Claim C10: whenever at least one operation reached a terminal outcome
and the run's elapsed time is positive, the final summary's divisions are
defined — the success rate divides by the terminal-outcome count and the
throughput by the elapsed time, both nonzero — while with zero terminal
outcomes the success-rate division is a `ZeroDivisionError`, so the
precondition is genuinely required. -/
theorem summary_defined (ts te : ℕ) (T : ℚ)
    (hc : 1 ≤ ts + te) (hT : 0 < T) :
    (success_rate ts te).isSome ∧ (actual_throughput ts te T).isSome ∧
    success_rate 0 0 = none := by
  refine ⟨?_, ?_, by simp [success_rate, pyDiv]⟩
  · have hpos : (0 : ℚ) < (ts : ℚ) + te := by
      have : 0 < ts + te := hc
      exact_mod_cast this
    simp [success_rate, pyDiv, ne_of_gt hpos]
  · simp [actual_throughput, pyDiv, ne_of_gt hT]

theorem summary_defined_witness :
    (success_rate 1 0).isSome ∧ (actual_throughput 1 0 1).isSome ∧
    success_rate 0 0 = none :=
  summary_defined 1 0 1 (by norm_num) (by norm_num)

end LoadTest
